import Mathlib

/-!
Shallow embedding of the functional core of Mofa's Kitchen Buddy
(`src/main.py`): the Ingredient/Recipe data model, the CRUD endpoint
bodies, the recipe-log append helpers, the image-upload endpoint and the
chatbot responder.  Machine details that the claims do not touch are
modelled abstractly: timestamps are natural numbers supplied by the
caller, SQL float columns are rationals (they are only stored and
compared, never computed with), and external effects (the OCR engine,
the filesystem append) are passed in as explicit oracles.
-/

namespace KitchenBuddy

/-- HTTP error as raised by `HTTPException(status_code, detail)`. -/
structure HTTPError where
  status : Nat
  detail : String
deriving Repr, DecidableEq

/-- Row of the `ingredients` table (`class Ingredient` in `main.py`).
`category` and `expiry_date` are nullable columns. -/
structure Ingredient where
  id : Nat
  name : String
  quantity : Rat
  unit : String
  category : Option String
  expiry_date : Option Nat
  last_updated : Nat
deriving Repr, DecidableEq

/-- Row of the `recipes` table (`class Recipe` in `main.py`). -/
structure Recipe where
  id : Nat
  name : String
  cuisine_type : String
  preparation_time : Int
  difficulty_level : String
  taste_profile : String
  instructions : String
  ingredients_list : String
  created_at : Nat
deriving Repr, DecidableEq

/-- `IngredientCreate` pydantic schema: all base fields required except
the two optional columns. -/
structure IngredientCreate where
  name : String
  quantity : Rat
  unit : String
  category : Option String
  expiry_date : Option Nat
deriving Repr, DecidableEq

/-- `IngredientUpdate` pydantic schema with `exclude_unset=True`
semantics: the outer `Option` is "field present in the payload"; for the
two nullable columns the inner `Option` is the (possibly null) new
value. -/
structure IngredientUpdate where
  name : Option String
  quantity : Option Rat
  unit : Option String
  category : Option (Option String)
  expiry_date : Option (Option Nat)
deriving Repr, DecidableEq

/-- `RecipeCreate` pydantic schema; `difficulty_level` is
`Optional[str] = "Medium"`, so `none` here means "left unset, use the
default". -/
structure RecipeCreate where
  name : String
  cuisine_type : String
  preparation_time : Int
  difficulty_level : Option String
  taste_profile : String
  instructions : String
  ingredients_list : String
deriving Repr, DecidableEq

/-- Committed contents of the `ingredients` table, in insertion order,
together with the next system-assigned primary key. -/
structure IngredientStore where
  rows : List Ingredient
  nextId : Nat
deriving Repr, DecidableEq

/-- Committed contents of the `recipes` table, in insertion order,
together with the next system-assigned primary key. -/
structure RecipeStore where
  rows : List Recipe
  nextId : Nat
deriving Repr, DecidableEq

/-- Python's substring test `needle in hay`. -/
def strContains (hay needle : String) : Bool :=
  decide (needle.data <:+: hay.data)

/-- Python's prefix test `s.startswith(pre)`, written over the
character lists so that it evaluates by kernel reduction. -/
def pyStartsWith (s pre : String) : Bool :=
  decide (pre.data <+: s.data)

/-- Python's `str.lower()` (restricted to ASCII, which covers every
keyword the code lowercases for); written as a structural map over the
character list rather than `String.toLower` so that it evaluates by
kernel reduction. -/
def pyLower (s : String) : String :=
  ⟨s.data.map Char.toLower⟩

/-- Detail string of the `IntegrityError` sqlite raises when the unique
index on `ingredients.name` is violated (its exact text is
driver-dependent; only the 400 status is load-bearing). -/
def uniqueNameViolation : String := "UNIQUE constraint failed: ingredients.name"

/-- `POST /ingredients/` (`create_ingredient`): builds a row from the
payload, commits, and on the unique-name `IntegrityError` rolls the
transaction back and raises 400.  `now` is `datetime.utcnow()` for the
`last_updated` column default.  Returns the endpoint result together
with the store after the request. -/
def create_ingredient (p : IngredientCreate) (now : Nat) (db : IngredientStore) :
    Except HTTPError Ingredient × IngredientStore :=
  if db.rows.any (fun r => decide (r.name = p.name)) then
    (Except.error ⟨400, uniqueNameViolation⟩, db)
  else
    let r : Ingredient :=
      ⟨db.nextId, p.name, p.quantity, p.unit, p.category, p.expiry_date, now⟩
    (Except.ok r, ⟨db.rows ++ [r], db.nextId + 1⟩)

/-- `GET /ingredients/` (`list_ingredients`): optional category filter,
then `offset(skip).limit(limit)`.  Python's `if category:` treats both
`None` and the empty string as "no filter". -/
def list_ingredients (skip limit : Nat) (category : Option String)
    (db : IngredientStore) : List Ingredient :=
  let q : List Ingredient :=
    match category with
    | none => db.rows
    | some c => if c = "" then db.rows
                else db.rows.filter (fun r => decide (r.category = some c))
  (q.drop skip).take limit

/-- The `for key, value in update_data.items(): setattr(...)` loop of
`update_ingredient` followed by the unconditional
`last_updated = datetime.utcnow()`. -/
def applyUpdate (r : Ingredient) (p : IngredientUpdate) (now : Nat) : Ingredient :=
  { r with
    name := p.name.getD r.name
    quantity := p.quantity.getD r.quantity
    unit := p.unit.getD r.unit
    category := p.category.getD r.category
    expiry_date := p.expiry_date.getD r.expiry_date
    last_updated := now }

/-- `PUT /ingredients/{id}` (`update_ingredient`): 404 when no row has
the id; otherwise apply the supplied fields, refresh `last_updated`,
and commit — a unique-name collision with another row makes the commit
raise, which is rolled back and surfaced as 400. -/
def update_ingredient (ingredient_id : Nat) (p : IngredientUpdate) (now : Nat)
    (db : IngredientStore) : Except HTTPError Ingredient × IngredientStore :=
  match db.rows.find? (fun r => decide (r.id = ingredient_id)) with
  | none => (Except.error ⟨404, "Ingredient not found"⟩, db)
  | some old =>
    let r := applyUpdate old p now
    if db.rows.any (fun x => decide (x.id ≠ ingredient_id ∧ x.name = r.name)) then
      (Except.error ⟨400, uniqueNameViolation⟩, db)
    else
      (Except.ok r,
       ⟨db.rows.map (fun x => if x.id = ingredient_id then r else x), db.nextId⟩)

/-- `DELETE /ingredients/{id}` (`delete_ingredient`). -/
def delete_ingredient (ingredient_id : Nat) (db : IngredientStore) :
    Except HTTPError String × IngredientStore :=
  match db.rows.find? (fun r => decide (r.id = ingredient_id)) with
  | none => (Except.error ⟨404, "Ingredient not found"⟩, db)
  | some _ =>
    (Except.ok "Ingredient deleted successfully",
     ⟨db.rows.filter (fun r => decide (r.id ≠ ingredient_id)), db.nextId⟩)

/-- The row `create_recipe` constructs from its payload: the pydantic
default fills `difficulty_level` with `"Medium"` when unset, and
`created_at` defaults to `datetime.utcnow()`. -/
def mkRecipe (p : RecipeCreate) (id : Nat) (now : Nat) : Recipe :=
  ⟨id, p.name, p.cuisine_type, p.preparation_time,
   p.difficulty_level.getD "Medium", p.taste_profile, p.instructions,
   p.ingredients_list, now⟩

/-- The `"-" * 50` separator written after every log block. -/
def dashes : String := String.mk (List.replicate 50 '-')

/-- The formatted block `save_recipe_to_file` appends to
`recipes/my_fav_recipes.txt` for one recipe. -/
def recipeBlock (r : Recipe) : String :=
  "\nRECIPE: " ++ r.name ++ "\n" ++
  "Cuisine: " ++ r.cuisine_type ++ "\n" ++
  "Prep Time: " ++ toString r.preparation_time ++ " minutes\n" ++
  "Difficulty: " ++ r.difficulty_level ++ "\n" ++
  "Taste: " ++ r.taste_profile ++ "\n" ++
  "Ingredients:\n" ++ r.ingredients_list ++ "\n" ++
  "Instructions:\n" ++ r.instructions ++ "\n" ++
  dashes ++ "\n"

/-- Detail string surfaced when the file append inside `create_recipe`
raises (the Python code puts `str(e)` here; the text is not
load-bearing). -/
def logAppendFailure : String := "recipe log append failed"

/-- `POST /recipes/` (`create_recipe`): commit the new row, then append
the formatted block to the recipe log.  `appendOk` is the filesystem
oracle: when the append raises, the handler's `db.rollback()` only
discards uncommitted changes — the commit above has already persisted
the row — so the store keeps the recipe while a 400 is surfaced.
Returns (endpoint result, store after, log text after). -/
def create_recipe (p : RecipeCreate) (now : Nat) (appendOk : Bool)
    (db : RecipeStore) (log : String) :
    Except HTTPError Recipe × RecipeStore × String :=
  let r := mkRecipe p db.nextId now
  let db' : RecipeStore := ⟨db.rows ++ [r], db.nextId + 1⟩
  if appendOk then
    (Except.ok r, db', log ++ recipeBlock r)
  else
    (Except.error ⟨400, logAppendFailure⟩, db', log)

/-- `GET /recipes/` (`list_recipes`): optional `cuisine_type` equality
filter (again via Python truthiness), then offset/limit. -/
def list_recipes (skip limit : Nat) (cuisine_type : Option String)
    (db : RecipeStore) : List Recipe :=
  let q : List Recipe :=
    match cuisine_type with
    | none => db.rows
    | some c => if c = "" then db.rows
                else db.rows.filter (fun r => decide (r.cuisine_type = c))
  (q.drop skip).take limit

/-- `POST /recipes/upload-image/` (`upload_recipe_image`).  `ocr` is the
oracle for `Image.open` + `pytesseract.image_to_string` on the uploaded
bytes: `Except.error e` when that pipeline raises, otherwise the raw
engine output (which the handler then strips).  Returns (endpoint
result, whether the recognition engine was invoked, log text after). -/
def upload_recipe_image (contentType : String) (ocr : Except String String)
    (log : String) : Except HTTPError String × Bool × String :=
  if ¬ pyStartsWith contentType "image/" then
    (Except.error ⟨400, "File must be an image"⟩, false, log)
  else
    match ocr with
    | Except.error e => (Except.error ⟨400, e⟩, true, log)
    | Except.ok raw =>
      let text := raw.trim
      (Except.ok text, true,
       log ++ "\nRECIPE FROM IMAGE:\n" ++ text ++ "\n" ++ dashes ++ "\n")

/-- The list comprehension
`[line for line in recipes.split('\n') if kw in line.lower()][:3]`
used by both the sweet and the spicy branch of `chat_with_bot`. -/
def matchingLines (kw log : String) : List String :=
  ((log.splitOn "\n").filter (fun line => strContains (pyLower line) kw)).take 3

/-- Prefix text of the sweet branch response. -/
def sweetPrefix : String :=
  "Based on your available ingredients, here are some sweet recipes you might like to try:\n"

/-- Prefix text of the spicy branch response. -/
def spicyPrefix : String :=
  "I found these spicy recipes that match your ingredients:\n"

/-- The fixed fallback response. -/
def fallbackResponse : String :=
  "I can help you find recipes based on your preferences and available ingredients. " ++
  "Would you like something sweet, spicy, or should I list your available ingredients?"

/-- `POST /chatbot/chat/` (`chat_with_bot`) as the pure function of the
message, the stored ingredient names (in store order) and the current
recipe-log text that its body computes: lowercase the message, then
dispatch on the first matching keyword. -/
def chat_with_bot (message : String) (ingredientNames : List String)
    (recipeLogText : String) : String :=
  let ingredient_names := ingredientNames.map pyLower
  let msg := pyLower message
  if strContains msg "sweet" then
    sweetPrefix ++ String.join (matchingLines "sweet" recipeLogText)
  else if strContains msg "spicy" then
    spicyPrefix ++ String.join (matchingLines "spicy" recipeLogText)
  else if strContains msg "available" || strContains msg "ingredients" then
    "You currently have: " ++ String.intercalate ", " ingredient_names
  else
    fallbackResponse

/-- Case-insensitive containment as worded in the spec: the keyword is
looked for in the case-folded message. -/
def containsCI (s kw : String) : Bool :=
  strContains (pyLower s) (pyLower kw)

/-- The sweet-branch response body. -/
def sweetResponse (log : String) : String :=
  sweetPrefix ++ String.join (matchingLines "sweet" log)

/-- The spicy-branch response body. -/
def spicyResponse (log : String) : String :=
  spicyPrefix ++ String.join (matchingLines "spicy" log)

/-- The ingredient-list response body. -/
def ingredientListResponse (ns : List String) : String :=
  "You currently have: " ++ String.intercalate ", " (ns.map pyLower)

/-- The Chat Responder dispatch exactly as the spec words it
(§4.4, first match wins on the case-insensitive message). -/
def respondSpec (message : String) (ingredientNames : List String)
    (recipeLogText : String) : String :=
  if containsCI message "sweet" then sweetResponse recipeLogText
  else if containsCI message "spicy" then spicyResponse recipeLogText
  else if containsCI message "available" || containsCI message "ingredients" then
    ingredientListResponse ingredientNames
  else fallbackResponse

/-- Sample store: one dairy ingredient. -/
def dbMilk : IngredientStore :=
  ⟨[⟨1, "Milk", 1, "liter", some "Dairy", none, 0⟩], 2⟩

/-- Sample creation payload reusing the stored name. -/
def pMilk : IngredientCreate := ⟨"Milk", 2, "liter", none, none⟩

/-- Sample partial update: only the quantity is supplied. -/
def updMilk : IngredientUpdate := ⟨none, some 5, none, none, none⟩

/-- Sample recipe payload with `difficulty_level` left unset. -/
def pCake : RecipeCreate :=
  ⟨"Cake", "Dessert", 45, none, "sweet", "Bake it", "flour, sugar"⟩

end KitchenBuddy

namespace KitchenBuddy

/-- A needle sitting between two explicit context lists is contained. -/
theorem part_here (l₁ l₂ : List Char) : l₁ <:+: l₁ ++ l₂ :=
  ⟨[], l₂, by simp⟩

/-- Containment is preserved by prepending more text. -/
theorem part_append_left (l : List Char) {l₁ l₂ : List Char}
    (h : l₁ <:+: l₂) : l₁ <:+: l ++ l₂ := by
  obtain ⟨s, t, rfl⟩ := h
  exact ⟨l ++ s, t, by simp⟩

/-- Bridge from list-level containment to `strContains`. -/
theorem strContains_of_data (hay needle : String)
    (h : needle.data <:+: hay.data) : strContains hay needle = true := by
  simpa [strContains] using h

/-- C1: the Chat Responder is the pure function `chat_with_bot` of the
message, the ingredient names and the recipe-log text, and it selects
its branch exactly by the spec's precedence: sweet, else spicy, else
available/ingredients, else the fixed fallback, each keyword matched
case-insensitively. -/
theorem chat_dispatch_follows_spec :
    ∀ (m : String) (ns : List String) (log : String),
      chat_with_bot m ns log = respondSpec m ns log :=
  fun _ _ _ => rfl

/-- C2: on a message containing "sweet" case-insensitively, the response
is the sweet prefix followed by the first at most 3 log lines containing
"sweet" case-insensitively, joined without separators; hence it starts
with the sweet prefix, and those lines number at most 3, each a log line
containing "sweet". -/
theorem chat_sweet_reply (m : String) (ns : List String) (log : String)
    (h : strContains (pyLower m) "sweet" = true) :
    chat_with_bot m ns log = sweetPrefix ++ String.join (matchingLines "sweet" log) ∧
    (∃ rest, chat_with_bot m ns log = sweetPrefix ++ rest) ∧
    (matchingLines "sweet" log).length ≤ 3 ∧
    ∀ l ∈ matchingLines "sweet" log,
      strContains (pyLower l) "sweet" = true ∧ l ∈ log.splitOn "\n" := by
  have e : chat_with_bot m ns log =
      sweetPrefix ++ String.join (matchingLines "sweet" log) := by
    simp [chat_with_bot, h]
  refine ⟨e, ⟨_, e⟩, ?_, ?_⟩
  · simp [matchingLines, List.length_take]
  · intro l hl
    have hl' : l ∈ (log.splitOn "\n").filter
        (fun line => strContains (pyLower line) "sweet") := by
      simpa [matchingLines] using List.take_subset 3 _ hl
    have := List.mem_filter.mp hl'
    exact ⟨this.2, this.1⟩

/-- Witness for C2 at a concrete sweet message and log. -/
theorem chat_sweet_reply_wit :
    chat_with_bot "I want something sweet" [] "Sweet cake\nplain\nsweetish" =
      sweetPrefix ++
        String.join (matchingLines "sweet" "Sweet cake\nplain\nsweetish") :=
  (chat_sweet_reply "I want something sweet" [] "Sweet cake\nplain\nsweetish"
    (by decide)).1

/-- C3 as stated is false: the ingredient-list reply is not the bare
comma-joined lowercased names — the code prepends "You currently
have: ". -/
theorem chat_ingredient_reply_cex :
    chat_with_bot "list my ingredients available" ["Milk"] "" ≠
      String.intercalate ", " (["Milk"].map pyLower) ∧
    chat_with_bot "list my ingredients available" ["Milk"] "" =
      "You currently have: " ++ String.intercalate ", " (["Milk"].map pyLower) :=
  ⟨by decide, by decide⟩

/-- C3 amended: on a message containing "available" or "ingredients"
but neither "sweet" nor "spicy" (case-insensitively), the response is
the fixed prefix "You currently have: " followed by the comma-joined
lowercased stored ingredient names. -/
theorem chat_ingredient_reply (m : String) (ns : List String) (log : String)
    (h1 : strContains (pyLower m) "sweet" = false)
    (h2 : strContains (pyLower m) "spicy" = false)
    (h3 : strContains (pyLower m) "available" = true ∨
          strContains (pyLower m) "ingredients" = true) :
    chat_with_bot m ns log =
      "You currently have: " ++ String.intercalate ", " (ns.map pyLower) := by
  rcases h3 with h3 | h3 <;> simp [chat_with_bot, h1, h2, h3]

/-- Witness for C3's amended statement at a concrete message. -/
theorem chat_ingredient_reply_wit :
    chat_with_bot "list my ingredients available" ["Milk", "Sugar"] "log" =
      "You currently have: milk, sugar" :=
  (chat_ingredient_reply "list my ingredients available" ["Milk", "Sugar"] "log"
    (by decide) (by decide) (Or.inl (by decide))).trans (by decide)

/-- C4: creating an ingredient whose name is already stored fails with
the 400-mapped uniqueness violation and leaves the store exactly as it
was. -/
theorem create_ingredient_duplicate (p : IngredientCreate) (now : Nat)
    (db : IngredientStore) (h : ∃ r ∈ db.rows, r.name = p.name) :
    create_ingredient p now db = (Except.error ⟨400, uniqueNameViolation⟩, db) := by
  have hb : db.rows.any (fun r => decide (r.name = p.name)) = true := by
    rcases h with ⟨r, hr, he⟩
    exact List.any_eq_true.mpr ⟨r, hr, by simp [he]⟩
  simp [create_ingredient, hb]

/-- Witness for C4: re-creating "Milk" on the sample store fails and
changes nothing. -/
theorem create_ingredient_duplicate_wit :
    create_ingredient pMilk 7 dbMilk =
      (Except.error ⟨400, uniqueNameViolation⟩, dbMilk) :=
  create_ingredient_duplicate pMilk 7 dbMilk (by decide)

/-- C5: updating an id with no matching row fails with 404 and leaves
the store unchanged; a successful update produces a row whose supplied
fields are overwritten, whose unsupplied fields are kept, whose
`last_updated` is the fresh timestamp, and a store in which only the row
with that id was replaced. -/
theorem update_ingredient_frame (db : IngredientStore) (iid : Nat)
    (p : IngredientUpdate) (now : Nat) :
    ((db.rows.find? (fun r => decide (r.id = iid))) = none →
        update_ingredient iid p now db =
          (Except.error ⟨404, "Ingredient not found"⟩, db)) ∧
    (∀ old r' db',
        (db.rows.find? (fun r => decide (r.id = iid))) = some old →
        update_ingredient iid p now db = (Except.ok r', db') →
        r'.id = old.id ∧
        r'.name = p.name.getD old.name ∧
        r'.quantity = p.quantity.getD old.quantity ∧
        r'.unit = p.unit.getD old.unit ∧
        r'.category = p.category.getD old.category ∧
        r'.expiry_date = p.expiry_date.getD old.expiry_date ∧
        r'.last_updated = now ∧
        db'.nextId = db.nextId ∧
        db'.rows = db.rows.map (fun x => if x.id = iid then r' else x) ∧
        ∀ x ∈ db.rows, x.id ≠ iid → x ∈ db'.rows) := by
  constructor
  · intro h
    simp [update_ingredient, h]
  · intro old r' db' hf hu
    simp only [update_ingredient, hf] at hu
    split at hu
    · simp at hu
    · simp only [Prod.mk.injEq, Except.ok.injEq] at hu
      obtain ⟨h1, h2⟩ := hu
      subst h1
      subst h2
      refine ⟨rfl, rfl, rfl, rfl, rfl, rfl, rfl, rfl, rfl, ?_⟩
      intro x hx hne
      have hm := List.mem_map_of_mem
        (fun y => if y.id = iid then applyUpdate old p now else y) hx
      simpa [hne] using hm

/-- Witness for C5: updating only the quantity of the sample ingredient
keeps its name, sets the new quantity, and refreshes `last_updated`. -/
theorem update_ingredient_frame_wit :
    update_ingredient 1 updMilk 9 dbMilk =
      (Except.ok ⟨1, "Milk", 5, "liter", some "Dairy", none, 9⟩,
       ⟨[⟨1, "Milk", 5, "liter", some "Dairy", none, 9⟩], 2⟩) ∧
    (⟨1, "Milk", 5, "liter", some "Dairy", none, 9⟩ : Ingredient).quantity =
      updMilk.quantity.getD 1 ∧
    (⟨1, "Milk", 5, "liter", some "Dairy", none, 9⟩ : Ingredient).last_updated = 9 := by
  have h := (update_ingredient_frame dbMilk 1 updMilk 9).2
    ⟨1, "Milk", 1, "liter", some "Dairy", none, 0⟩
    ⟨1, "Milk", 5, "liter", some "Dairy", none, 9⟩
    ⟨[⟨1, "Milk", 5, "liter", some "Dairy", none, 9⟩], 2⟩
    (by decide) rfl
  exact ⟨rfl, h.2.2.1, h.2.2.2.2.2.2.1⟩

/-- C6 as stated is false at the empty-string filter: the code returns
the dairy row even though its category is not the empty string. -/
theorem list_filter_cex :
    list_ingredients 0 100 (some "") dbMilk = dbMilk.rows ∧
    dbMilk.rows ≠ [] ∧
    dbMilk.rows.all (fun r => decide (r.category ≠ some "")) = true :=
  ⟨by decide, by decide, by decide⟩

/-- C6 amended: for a non-empty filter value the list operations return
exactly the rows whose filter field equals it, in insertion order,
skipping `skip` and returning at most `limit`; with no filter — or with
the empty-string filter, which Python truthiness treats the same — they
return all rows in that window. Both endpoints are pure functions of
the store and arguments, so repeated calls return the same slice. -/
theorem list_pagination (db : IngredientStore) (rdb : RecipeStore)
    (skip limit : Nat) (c : String) (h : c ≠ "") :
    list_ingredients skip limit (some c) db =
      ((db.rows.filter (fun r => decide (r.category = some c))).drop skip).take limit ∧
    list_ingredients skip limit none db = (db.rows.drop skip).take limit ∧
    list_recipes skip limit (some c) rdb =
      ((rdb.rows.filter (fun r => decide (r.cuisine_type = c))).drop skip).take limit ∧
    list_recipes skip limit none rdb = (rdb.rows.drop skip).take limit ∧
    list_ingredients skip limit (some "") db = (db.rows.drop skip).take limit ∧
    list_recipes skip limit (some "") rdb = (rdb.rows.drop skip).take limit := by
  refine ⟨?_, rfl, ?_, rfl, rfl, rfl⟩ <;> simp [list_ingredients, list_recipes, h]

/-- Witness for C6's amended statement with the non-empty filter
"Dairy" on the sample store. -/
theorem list_pagination_wit :
    list_ingredients 0 100 (some "Dairy") dbMilk =
      ((dbMilk.rows.filter
          (fun r => decide (r.category = some "Dairy"))).drop 0).take 100 :=
  (list_pagination dbMilk ⟨[], 1⟩ 0 100 "Dairy" (by decide)).1

/-- C7: a successful recipe creation appends exactly one formatted block
to the log, and that block contains the recipe's name, cuisine,
preparation time, difficulty, taste, ingredients list and instructions
verbatim; a payload leaving `difficulty_level` unset yields the stored
difficulty "Medium". -/
theorem create_recipe_appends (p : RecipeCreate) (now : Nat)
    (db : RecipeStore) (log : String) :
    create_recipe p now true db log =
      (Except.ok (mkRecipe p db.nextId now),
       ⟨db.rows ++ [mkRecipe p db.nextId now], db.nextId + 1⟩,
       log ++ recipeBlock (mkRecipe p db.nextId now)) ∧
    strContains (recipeBlock (mkRecipe p db.nextId now)) p.name = true ∧
    strContains (recipeBlock (mkRecipe p db.nextId now)) p.cuisine_type = true ∧
    strContains (recipeBlock (mkRecipe p db.nextId now))
      (toString p.preparation_time) = true ∧
    strContains (recipeBlock (mkRecipe p db.nextId now))
      (mkRecipe p db.nextId now).difficulty_level = true ∧
    strContains (recipeBlock (mkRecipe p db.nextId now)) p.taste_profile = true ∧
    strContains (recipeBlock (mkRecipe p db.nextId now)) p.ingredients_list = true ∧
    strContains (recipeBlock (mkRecipe p db.nextId now)) p.instructions = true ∧
    (p.difficulty_level = none →
      (mkRecipe p db.nextId now).difficulty_level = "Medium") := by
  refine ⟨rfl, ?_, ?_, ?_, ?_, ?_, ?_, ?_, ?_⟩
  · apply strContains_of_data
    simp only [recipeBlock, mkRecipe, String.data_append, List.append_assoc]
    exact part_append_left _ (part_here _ _)
  · apply strContains_of_data
    simp only [recipeBlock, mkRecipe, String.data_append, List.append_assoc]
    exact part_append_left _ (part_append_left _ (part_append_left _
      (part_append_left _ (part_here _ _))))
  · apply strContains_of_data
    simp only [recipeBlock, mkRecipe, String.data_append, List.append_assoc]
    exact part_append_left _ (part_append_left _ (part_append_left _
      (part_append_left _ (part_append_left _ (part_append_left _
        (part_append_left _ (part_here _ _)))))))
  · apply strContains_of_data
    simp only [recipeBlock, mkRecipe, String.data_append, List.append_assoc]
    exact part_append_left _ (part_append_left _ (part_append_left _
      (part_append_left _ (part_append_left _ (part_append_left _
        (part_append_left _ (part_append_left _ (part_append_left _
          (part_append_left _ (part_here _ _))))))))))
  · apply strContains_of_data
    simp only [recipeBlock, mkRecipe, String.data_append, List.append_assoc]
    exact part_append_left _ (part_append_left _ (part_append_left _
      (part_append_left _ (part_append_left _ (part_append_left _
        (part_append_left _ (part_append_left _ (part_append_left _
          (part_append_left _ (part_append_left _ (part_append_left _
            (part_append_left _ (part_here _ _)))))))))))))
  · apply strContains_of_data
    simp only [recipeBlock, mkRecipe, String.data_append, List.append_assoc]
    exact part_append_left _ (part_append_left _ (part_append_left _
      (part_append_left _ (part_append_left _ (part_append_left _
        (part_append_left _ (part_append_left _ (part_append_left _
          (part_append_left _ (part_append_left _ (part_append_left _
            (part_append_left _ (part_append_left _ (part_append_left _
              (part_append_left _ (part_here _ _))))))))))))))))
  · apply strContains_of_data
    simp only [recipeBlock, mkRecipe, String.data_append, List.append_assoc]
    exact part_append_left _ (part_append_left _ (part_append_left _
      (part_append_left _ (part_append_left _ (part_append_left _
        (part_append_left _ (part_append_left _ (part_append_left _
          (part_append_left _ (part_append_left _ (part_append_left _
            (part_append_left _ (part_append_left _ (part_append_left _
              (part_append_left _ (part_append_left _ (part_append_left _
                (part_append_left _ (part_here _ _)))))))))))))))))))
  · intro hd
    simp [mkRecipe, hd]

/-- Witness for C7: the sample payload leaves the difficulty unset and
the created recipe stores "Medium". -/
theorem create_recipe_appends_wit :
    pCake.difficulty_level = none ∧
    (mkRecipe pCake 1 3).difficulty_level = "Medium" := by
  have h := create_recipe_appends pCake 3 ⟨[], 1⟩ ""
  exact ⟨rfl, h.2.2.2.2.2.2.2.2 rfl⟩

/-- C8: when the log append fails after the commit, the handler still
surfaces a 400 but the committed recipe row stays in the store (the
post-commit rollback has nothing to undo) and the log is unchanged. -/
theorem create_recipe_log_fail (p : RecipeCreate) (now : Nat)
    (db : RecipeStore) (log : String) :
    create_recipe p now false db log =
      (Except.error ⟨400, logAppendFailure⟩,
       ⟨db.rows ++ [mkRecipe p db.nextId now], db.nextId + 1⟩, log) ∧
    mkRecipe p db.nextId now ∈ (create_recipe p now false db log).2.1.rows := by
  refine ⟨rfl, ?_⟩
  simp [create_recipe]

/-- C9: a non-image content type makes the upload endpoint fail with 400
before recognition: the engine-invoked flag is false and the log is
untouched. -/
theorem upload_non_image (ct : String) (ocr : Except String String)
    (log : String) (h : pyStartsWith ct "image/" = false) :
    upload_recipe_image ct ocr log =
      (Except.error ⟨400, "File must be an image"⟩, false, log) := by
  simp [upload_recipe_image, h]

/-- Witness for C9 with a plain-text upload. -/
theorem upload_non_image_wit :
    upload_recipe_image "text/plain" (Except.ok "some text") "log" =
      (Except.error ⟨400, "File must be an image"⟩, false, "log") :=
  upload_non_image "text/plain" (Except.ok "some text") "log" (by decide)

/-- C10: an empty-string category filter is treated by Python truthiness
exactly like no filter at all. -/
theorem list_ingredients_empty_filter_eq_none (db : IngredientStore)
    (skip limit : Nat) :
    list_ingredients skip limit (some "") db =
      list_ingredients skip limit none db :=
  rfl

end KitchenBuddy
